import Mathlib

/-!
Verification of the sol-dex-pools fetch-normalize-score-select pipeline.

Embedding conventions:
* Finite `f64` values are modelled as real numbers (`ℝ`); `f64::log10` is
  `Real.logb 10`.  Claims about `NaN` semantics are settled with a dedicated
  model `F64` whose finite payload is a rational (every finite `f64` is a
  rational number), so that the comparator code can be run on concrete inputs.
* Numeric string fields of raw provider entries are modelled by the outcome of
  `str::parse::<f64>()`, i.e. an `Option` of the parsed value.
* `Iterator::max_by` is modelled by `maxBy` below, following its documented
  contract: a left fold that keeps the accumulator only when it compares
  strictly greater, so that when several elements are equally maximum the last
  one is returned.
* The orchestrator `get_pools_data` runs the four provider tasks concurrently;
  each `process_*` helper holds the shared mutex for its whole loop, so each
  source's records are contiguous in the aggregate and only the relative order
  of the four blocks is scheduling-dependent.  We fix the textual join order;
  none of the verified claims depends on the inter-source order.
* Fields of raw provider structs that the pipeline never reads are omitted
  from the Lean structures.
-/

namespace SolDexPools

/-- Model of an `f64` that may be `NaN`; finite values carry a rational
payload (every finite `f64` is rational).  Used for the Selector claims that
are about `NaN` comparison semantics. -/
inductive F64 where
  | nan : F64
  | fin : ℚ → F64
deriving DecidableEq

/-- `f64::is_nan`. -/
def F64.isNan : F64 → Bool
  | .nan => true
  | .fin _ => false

/-- `f64::partial_cmp`: `None` exactly when one side is `NaN`, otherwise the
total comparison of the finite values. -/
def F64.pcmp : F64 → F64 → Option Ordering
  | .nan, _ => none
  | _, .nan => none
  | .fin a, .fin b => some (compare a b)

/-- One step of `Iterator::max_by(cmp)`: the accumulator is kept only when it
compares strictly greater than the new element, so an equal element replaces
it. -/
def maxByStep {α : Type} (cmp : α → α → Ordering) (acc : Option α) (x : α) : Option α :=
  match acc with
  | none => some x
  | some m => if cmp m x = Ordering.gt then some m else some x

/-- `Iterator::max_by(cmp)`: returns the maximum element with respect to
`cmp`; when several elements are equally maximum, the last one is returned. -/
def maxBy {α : Type} (cmp : α → α → Ordering) (l : List α) : Option α :=
  l.foldl (maxByStep cmp) none

/-- A pool record as seen by the Selector: only the score field (here
`NaN`-aware) is read by the comparison; the address stands for the rest of
the record's identity. -/
structure ScoredPool where
  pool_address : String
  score : F64
deriving DecidableEq

/-- The comparator of `find_healthiest_pool` in `main.rs`
(`a.score.partial_cmp(&b.score).unwrap_or(Ordering::Equal)`), over
possibly-`NaN` scores. -/
def mainScoreCmp (a b : ScoredPool) : Ordering :=
  (F64.pcmp a.score b.score).getD Ordering.eq

/-- `find_healthiest_pool` of `main.rs` (the Selector used by the live
pipeline), over possibly-`NaN` scores:
`pools.iter().max_by(...).cloned()`. -/
def find_healthiest_pool_f64 (pools : List ScoredPool) : Option ScoredPool :=
  maxBy mainScoreCmp pools

/-- The comparator of `find_healthiest_pool` in `pool_analysis.rs`
(lines 137-148): an explicit `is_nan` match, then
`partial_cmp(..).unwrap_or(Equal)` on the non-`NaN` path. -/
def healthScoreCmp (a b : F64) : Ordering :=
  match a.isNan, b.isNan with
  | true, true => Ordering.eq
  | true, false => Ordering.lt
  | false, true => Ordering.gt
  | false, false => (F64.pcmp a b).getD Ordering.eq

/-- The selection stage of `find_healthiest_pool` in `pool_analysis.rs`:
empty input yields `None`, otherwise `max_by` with the `NaN`-aware
comparator on the health scores of the already-scored records. -/
def find_healthiest_scored (scored : List ScoredPool) : Option ScoredPool :=
  if scored.isEmpty then none
  else maxBy (fun a b => healthScoreCmp a.score b.score) scored

noncomputable section

/-- `SOL_PRICE_USD` of `main.rs`: the fixed native-asset reference price. -/
def SOL_PRICE_USD : ℝ := 161.0

/-- The wrapped-SOL mint address literal used throughout `main.rs`. -/
def solMint : String := "So11111111111111111111111111111111111111112"

/-- `raydium.rs` `TokenInfo` (fields read by the pipeline). -/
structure TokenInfo where
  address : String
  symbol : String

/-- `raydium.rs` `PeriodInfo` (fields read by the pipeline). -/
structure PeriodInfo where
  volume : ℝ

/-- `raydium.rs` `PoolInfo` (fields read by the pipeline). -/
structure RaydiumPoolInfo where
  id : String
  mint_a : TokenInfo
  mint_b : TokenInfo
  price : ℝ
  fee_rate : ℝ
  tvl : ℝ
  day : PeriodInfo

/-- `raydium.rs` `PoolData` (fields read by the pipeline). -/
structure PoolData where
  pools : List RaydiumPoolInfo

/-- `raydium.rs` `RaydiumPoolResponse`. -/
structure RaydiumPoolResponse where
  success : Bool
  data : PoolData

/-- The on-chain whirlpool account data read by `process_orca_pools`:
`liquidity` is a `u128`, `fee_rate` a `u16`, `tick_spacing` a `u16`. -/
structure WhirlpoolData where
  liquidity : ℕ
  fee_rate : ℕ
  tick_spacing : ℕ

/-- `orca_whirlpools::InitializedPool` (fields read by the pipeline). -/
structure OrcaPoolInfo where
  address : String
  price : ℝ
  data : WhirlpoolData

/-- `meteora.rs` `PoolInfo` (fields read by the pipeline).  The code indexes
only entries `[0]` and `[1]` of `pool_token_mints` / `pool_token_amounts`, so
the two entries are modelled as a pair; amount strings, `pool_tvl` and
`total_fee_pct` are numeric strings, modelled by their `f64`-parse outcome. -/
structure MeteoraPoolInfo where
  pool_address : String
  pool_token_mints : String × String
  pool_token_amounts : Option ℝ × Option ℝ
  pool_tvl : Option ℝ
  pool_name : String
  trading_volume : ℝ
  total_fee_pct : Option ℝ

/-- `meteora.rs` `MeteoraPoolResponse` (fields read by the pipeline). -/
structure MeteoraPoolResponse where
  data : List MeteoraPoolInfo

/-- `meteora_dlmm.rs` `DlmmPair` (fields read by the pipeline);
`base_fee_percentage` and `liquidity` are numeric strings, modelled by their
`f64`-parse outcome. -/
structure DlmmPair where
  address : String
  name : String
  mint_x : String
  mint_y : String
  base_fee_percentage : Option ℝ
  liquidity : Option ℝ
  trade_volume_24h : ℝ
  current_price : ℝ
  hide : Bool
  is_blacklisted : Bool

/-- `meteora_dlmm.rs` `DlmmGroup`. -/
structure DlmmGroup where
  name : String
  pairs : List DlmmPair

/-- `meteora_dlmm.rs` `MeteoraGroupsResponse` (fields read by the pipeline). -/
structure MeteoraGroupsResponse where
  groups : List DlmmGroup

/-- `main.rs` `PoolAnalysis`: the canonical record pushed into the shared
aggregate. -/
structure PoolAnalysis where
  amm : String
  name : String
  pool_address : String
  price_usd : ℝ
  liquidity_usd : ℝ
  fee_percentage : ℝ
  volume_24h : Option ℝ
  score : ℝ

/-- `process_raydium_pools` of `main.rs`: the records it appends to the
aggregate (an early return on `!success` or an empty pool list appends
nothing). -/
def process_raydium_pools (raydium_data : RaydiumPoolResponse) : List PoolAnalysis :=
  if !raydium_data.success || raydium_data.data.pools.isEmpty then []
  else
    raydium_data.data.pools.map fun pool =>
      let price_usd : ℝ :=
        if pool.mint_a.address = solMint then pool.price * SOL_PRICE_USD
        else if pool.mint_b.address = solMint then pool.price * SOL_PRICE_USD
        else pool.price
      let liquidity_usd := pool.tvl
      let volume_weight : ℝ := 0.45
      let liquidity_weight : ℝ := 0.45
      let fee_weight : ℝ := 0.1
      let normalized_fee : ℝ :=
        if pool.fee_rate < 5.0 then 1.0 - pool.fee_rate / 5.0 else 0.0
      let volume_score : ℝ :=
        if pool.day.volume > 0.0 then min (Real.logb 10 pool.day.volume / 7.0) 1.0 else 0.0
      let liquidity_score : ℝ :=
        if liquidity_usd > 0.0 then min (Real.logb 10 liquidity_usd / 7.0) 1.0 else 0.0
      let score := volume_score * volume_weight + liquidity_score * liquidity_weight
        + normalized_fee * fee_weight
      { amm := "Raydium"
        name := pool.mint_a.symbol ++ "-" ++ pool.mint_b.symbol
        pool_address := pool.id
        price_usd := price_usd
        liquidity_usd := liquidity_usd
        fee_percentage := pool.fee_rate * 100.0
        volume_24h := some pool.day.volume
        score := score }

/-- `process_orca_pools` of `main.rs`. -/
def process_orca_pools (orca_pools : List OrcaPoolInfo) : List PoolAnalysis :=
  if orca_pools.isEmpty then []
  else
    orca_pools.map fun pool =>
      let sol_price := pool.price
      let price_usd := sol_price * SOL_PRICE_USD
      let liquidity_factor : ℝ := 1.0e-9
      let liquidity_usd := (pool.data.liquidity : ℝ) * liquidity_factor * price_usd
      let liquidity_weight : ℝ := 0.7
      let fee_weight : ℝ := 0.3
      let fee_rate : ℝ := (pool.data.fee_rate : ℝ) / 10000.0
      let normalized_fee : ℝ := if fee_rate < 5.0 then 1.0 - fee_rate / 5.0 else 0.0
      let liquidity_score : ℝ :=
        if liquidity_usd > 0.0 then min (Real.logb 10 liquidity_usd / 7.0) 1.0 else 0.0
      let score := liquidity_score * liquidity_weight + normalized_fee * fee_weight
      { amm := "Orca"
        name := "Whirlpool-" ++ toString pool.data.tick_spacing
        pool_address := pool.address
        price_usd := price_usd
        liquidity_usd := liquidity_usd
        fee_percentage := fee_rate * 100.0
        volume_24h := none
        score := score }

/-- `calc_meteora_price` of `main.rs`. -/
def calc_meteora_price (pool : MeteoraPoolInfo) : Option ℝ :=
  match pool.pool_token_amounts.1, pool.pool_token_amounts.2 with
  | some token0_amount, some token1_amount =>
    if pool.pool_token_mints.1 = solMint then
      if token1_amount > 0.0 then some (token0_amount / token1_amount) else none
    else if pool.pool_token_mints.2 = solMint then
      if token0_amount > 0.0 then some (token1_amount / token0_amount) else none
    else
      if token0_amount > 0.0 then some (token1_amount / token0_amount) else none
  | _, _ => none

/-- `process_meteora_pools` of `main.rs`: entries whose price calculation or
TVL parse fails are skipped (`continue`); an unparseable `total_fee_pct` is
defaulted to `0.0` (`unwrap_or`). -/
def process_meteora_pools (meteora_data : MeteoraPoolResponse) : List PoolAnalysis :=
  if meteora_data.data.isEmpty then []
  else
    meteora_data.data.filterMap fun pool =>
      match calc_meteora_price pool with
      | none => none
      | some sol_price =>
        let price_usd := sol_price * SOL_PRICE_USD
        match pool.pool_tvl with
        | none => none
        | some liquidity_usd =>
          let fee_percentage := pool.total_fee_pct.getD 0.0
          let volume_weight : ℝ := 0.45
          let liquidity_weight : ℝ := 0.45
          let fee_weight : ℝ := 0.1
          let normalized_fee : ℝ :=
            if fee_percentage < 5.0 then 1.0 - fee_percentage / 5.0 else 0.0
          let volume_score : ℝ :=
            if pool.trading_volume > 0.0 then
              min (Real.logb 10 pool.trading_volume / 7.0) 1.0
            else 0.0
          let liquidity_score : ℝ :=
            if liquidity_usd > 0.0 then min (Real.logb 10 liquidity_usd / 7.0) 1.0 else 0.0
          let score := volume_score * volume_weight + liquidity_score * liquidity_weight
            + normalized_fee * fee_weight
          some
            { amm := "Meteora"
              name := pool.pool_name
              pool_address := pool.pool_address
              price_usd := price_usd
              liquidity_usd := liquidity_usd
              fee_percentage := fee_percentage
              volume_24h := some pool.trading_volume
              score := score }

/-- `process_meteora_dlmm_pools` of `main.rs`: hidden/blacklisted pairs and
pairs whose `liquidity` fails to parse or is non-positive are skipped; an
unparseable `base_fee_percentage` is defaulted to `0.0` (`unwrap_or`); the
stored fee is `base_fee_percentage * 100.0`. -/
def process_meteora_dlmm_pools (meteora_dlmm_data : MeteoraGroupsResponse) : List PoolAnalysis :=
  if meteora_dlmm_data.groups.isEmpty then []
  else
    meteora_dlmm_data.groups.flatMap fun group =>
      group.pairs.filterMap fun pair =>
        if pair.hide || pair.is_blacklisted then none
        else
          match pair.liquidity with
          | none => none
          | some liq =>
            if liq > 0.0 then
              let liquidity_usd := liq
              let base_fee_percentage := pair.base_fee_percentage.getD 0.0
              let volume_weight : ℝ := 0.45
              let liquidity_weight : ℝ := 0.45
              let fee_weight : ℝ := 0.1
              let normalized_fee : ℝ :=
                if base_fee_percentage < 5.0 then 1.0 - base_fee_percentage / 5.0 else 0.0
              let volume_score : ℝ :=
                if pair.trade_volume_24h > 0.0 then
                  min (Real.logb 10 pair.trade_volume_24h / 7.0) 1.0
                else 0.0
              let liquidity_score : ℝ :=
                if liquidity_usd > 0.0 then min (Real.logb 10 liquidity_usd / 7.0) 1.0 else 0.0
              let score := volume_score * volume_weight + liquidity_score * liquidity_weight
                + normalized_fee * fee_weight
              let price_usd : ℝ :=
                if pair.mint_y = solMint then pair.current_price * SOL_PRICE_USD
                else if pair.mint_x = solMint then pair.current_price * SOL_PRICE_USD
                else pair.current_price
              some
                { amm := "Meteora DLMM"
                  name := pair.name
                  pool_address := pair.address
                  price_usd := price_usd
                  liquidity_usd := liquidity_usd
                  fee_percentage := base_fee_percentage * 100.0
                  volume_24h := some pair.trade_volume_24h
                  score := score }
            else none

/-- `f64::partial_cmp` restricted to finite values (the ℝ model), as used by
`find_healthiest_pool` in `main.rs`; on finite floats it is always `some`. -/
def pcmpReal (a b : ℝ) : Option Ordering :=
  some (if a < b then Ordering.lt else if b < a then Ordering.gt else Ordering.eq)

/-- `find_healthiest_pool` of `main.rs` on the ℝ-valued records:
`pools.iter().max_by(|a, b| a.score.partial_cmp(&b.score).unwrap_or(Equal)).cloned()`. -/
def find_healthiest_pool (pools : List PoolAnalysis) : Option PoolAnalysis :=
  maxBy (fun a b => (pcmpReal a.score b.score).getD Ordering.eq) pools

/-- Outcome of one adapter task inside `get_pools_data`'s `tokio::join!`:
`Ok(Ok(data))` (the data is processed), `Ok(Err(e))` (adapter error, logged
as a warning, contributes nothing), or `Err(_)` from `timeout` (logged as a
warning, contributes nothing). -/
inductive FetchOutcome (α : Type) where
  | success : α → FetchOutcome α
  | failure : FetchOutcome α
  | timedOut : FetchOutcome α

/-- `get_pools_data` of `main.rs`: the final content of the mutex-protected
aggregate after all four adapter tasks resolve.  Each `process_*` helper
holds the lock for its whole loop, so each source's block is contiguous; the
inter-source order is completion-order dependent and fixed here to the
textual join order (no verified claim depends on it). -/
def get_pools_data (raydium : FetchOutcome RaydiumPoolResponse)
    (orca : FetchOutcome (List OrcaPoolInfo))
    (meteora : FetchOutcome MeteoraPoolResponse)
    (meteora_dlmm : FetchOutcome MeteoraGroupsResponse) : List PoolAnalysis :=
  (match raydium with
    | .success d => process_raydium_pools d
    | _ => []) ++
  (match orca with
    | .success d => process_orca_pools d
    | _ => []) ++
  (match meteora with
    | .success d => process_meteora_pools d
    | _ => []) ++
  (match meteora_dlmm with
    | .success d => process_meteora_dlmm_pools d
    | _ => [])

/-- The error message of `token_price_analysis`. -/
def noPoolsMsg : String := "No valid pools found for the given token pair"

/-- `token_price_analysis` of `main.rs`, as a function of the four adapter
outcomes: error on an empty aggregate, otherwise the healthiest pool. -/
def token_price_analysis (raydium : FetchOutcome RaydiumPoolResponse)
    (orca : FetchOutcome (List OrcaPoolInfo))
    (meteora : FetchOutcome MeteoraPoolResponse)
    (meteora_dlmm : FetchOutcome MeteoraGroupsResponse) : Except String PoolAnalysis :=
  let all_pools := get_pools_data raydium orca meteora meteora_dlmm
  if all_pools.isEmpty then Except.error noPoolsMsg
  else
    match find_healthiest_pool all_pools with
    | some best_pool => Except.ok best_pool
    | none => Except.error noPoolsMsg

/-- `pool_analysis.rs` `StandardizedPool` (metadata field omitted). -/
structure StandardizedPool where
  amm : String
  name : String
  address : String
  price_usd : ℝ
  liquidity_usd : ℝ
  volume_24h : Option ℝ
  fee_percentage : ℝ
  token_addresses : List String

/-- `pool_analysis.rs` `PoolHealthAnalysis`. -/
structure PoolHealthAnalysis where
  pool : StandardizedPool
  health_score : ℝ
  liquidity_score : ℝ
  volume_score : ℝ
  fee_score : ℝ
  price_stability : Option ℝ

/-- `pool_analysis.rs` `HealthScoreConfig`. -/
structure HealthScoreConfig where
  liquidity_weight : ℝ
  volume_weight : ℝ
  fee_weight : ℝ
  stability_weight : ℝ
  max_expected_liquidity : ℝ
  max_expected_volume : ℝ
  max_expected_fee : ℝ

/-- The `Default` instance of `HealthScoreConfig`. -/
def HealthScoreConfig.default : HealthScoreConfig :=
  { liquidity_weight := 0.5
    volume_weight := 0.3
    fee_weight := 0.1
    stability_weight := 0.1
    max_expected_liquidity := 10000000.0
    max_expected_volume := 5000000.0
    max_expected_fee := 1.0 }

/-- `calculate_health_score` of `pool_analysis.rs`. -/
def calculate_health_score (pool : StandardizedPool) (config : HealthScoreConfig) :
    PoolHealthAnalysis :=
  let liquidity_score : ℝ :=
    if pool.liquidity_usd > 0.0 then
      let log_score :=
        min (Real.logb 10 pool.liquidity_usd / Real.logb 10 config.max_expected_liquidity) 1.0
      max log_score 0.0
    else 0.0
  let volume_score : ℝ :=
    match pool.volume_24h with
    | some volume =>
      if volume > 0.0 then
        max (min (Real.logb 10 volume / Real.logb 10 config.max_expected_volume) 1.0) 0.0
      else 0.0
    | none => 0.0
  let fee_score : ℝ := max (1.0 - pool.fee_percentage / config.max_expected_fee) 0.0
  let price_stability : Option ℝ := none
  let health_score := liquidity_score * config.liquidity_weight
    + volume_score * config.volume_weight + fee_score * config.fee_weight
  let health_score :=
    match price_stability with
    | some stability => health_score + stability * config.stability_weight
    | none => health_score
  { pool := pool
    health_score := health_score
    liquidity_score := liquidity_score
    volume_score := volume_score
    fee_score := fee_score
    price_stability := price_stability }

/-- Modelled from the spec: `clamp(x, 0, 1)` as used in the spec's component
formulas (`§4.4`), for comparison with the code's components. -/
def clamp01 (x : ℝ) : ℝ :=
  min (max x 0) 1

/-- An adapter outcome that contributes nothing to the aggregate: an adapter
error or a timeout. -/
def FetchOutcome.failed {α : Type} : FetchOutcome α → Prop
  | .success _ => False
  | .failure => True
  | .timedOut => True

/-- Sample Raydium response whose single pool has `tvl = 0`. -/
def c1_raydium_zero_tvl : RaydiumPoolResponse :=
  { success := true
    data := { pools := [{ id := "ray-pool-0"
                          mint_a := { address := solMint, symbol := "SOL" }
                          mint_b := { address := "JUPmint", symbol := "JUP" }
                          price := 0.05
                          fee_rate := 0.0025
                          tvl := 0.0
                          day := { volume := 0.0 } }] } }

/-- Sample Meteora DLMM response with one healthy pair (`liquidity` parses
to `5000`, base fee parses to `0.3`). -/
def c1_dlmm_sample : MeteoraGroupsResponse :=
  { groups := [{ name := "JUP-SOL"
                 pairs := [{ address := "dlmm-pair-1"
                             name := "JUP-SOL"
                             mint_x := "JUPmint"
                             mint_y := solMint
                             base_fee_percentage := some 0.3
                             liquidity := some 5000.0
                             trade_volume_24h := 0.0
                             current_price := 0.05
                             hide := false
                             is_blacklisted := false }] }] }

/-- Sample Raydium response with one valid pool (`tvl = 1000`). -/
def c2_raydium_sample : RaydiumPoolResponse :=
  { success := true
    data := { pools := [{ id := "ray-pool-1"
                          mint_a := { address := solMint, symbol := "SOL" }
                          mint_b := { address := "JUPmint", symbol := "JUP" }
                          price := 0.05
                          fee_rate := 0.0025
                          tvl := 1000.0
                          day := { volume := 0.0 } }] } }

/-- Sample record with finite fields and a (finite) negative fee. -/
def c4_pool : StandardizedPool :=
  { amm := "Raydium", name := "X-Y", address := "a", price_usd := 1.0, liquidity_usd := 0.0
    volume_24h := none, fee_percentage := -95.0, token_addresses := ["x", "y"] }

/-- Sample record with zero liquidity, no volume and zero fee. -/
def c4w_pool : StandardizedPool :=
  { amm := "Raydium", name := "X-Y", address := "a", price_usd := 1.0, liquidity_usd := 0.0
    volume_24h := none, fee_percentage := 0.0, token_addresses := ["x", "y"] }

/-- Sample record with a negative fee (finite). -/
def c5_pool : StandardizedPool :=
  { amm := "Orca", name := "X-Y", address := "a", price_usd := 1.0, liquidity_usd := 0.0
    volume_24h := none, fee_percentage := -5.0, token_addresses := ["x", "y"] }

/-- Sample record whose fee (`6`) is above the default ceiling (`1`). -/
def c5w_pool : StandardizedPool :=
  { amm := "Orca", name := "X-Y", address := "a", price_usd := 1.0, liquidity_usd := 0.0
    volume_24h := none, fee_percentage := 6.0, token_addresses := ["x", "y"] }

/-- Sample Raydium response whose pool has provider-native fractional fee
`0.003`. -/
def c6_raydium : RaydiumPoolResponse :=
  { success := true
    data := { pools := [{ id := "ray-pool-2"
                          mint_a := { address := solMint, symbol := "SOL" }
                          mint_b := { address := "USDCmint", symbol := "USDC" }
                          price := 0.05
                          fee_rate := 0.003
                          tvl := 1000.0
                          day := { volume := 0.0 } }] } }

/-- Sample Meteora DLMM response whose pair has provider-native percent fee
`0.30` (the `base_fee_percentage` field, printed as a percentage by
`meteora_dlmm.rs`'s own example code). -/
def c6_dlmm : MeteoraGroupsResponse :=
  { groups := [{ name := "USDC-SOL"
                 pairs := [{ address := "dlmm-pair-2"
                             name := "USDC-SOL"
                             mint_x := "USDCmint"
                             mint_y := solMint
                             base_fee_percentage := some 0.30
                             liquidity := some 1000.0
                             trade_volume_24h := 0.0
                             current_price := 0.05
                             hide := false
                             is_blacklisted := false }] }] }

/-- Sample Meteora AMM pool: SOL is token 0 with reserve `100`, the other
token has reserve `10000`, TVL parses to `50`. -/
def c7_pool : MeteoraPoolInfo :=
  { pool_address := "met-pool-1"
    pool_token_mints := (solMint, "USDCmint")
    pool_token_amounts := (some 100.0, some 10000.0)
    pool_tvl := some 50.0
    pool_name := "SOL-USDC"
    trading_volume := 0.0
    total_fee_pct := some 0.3 }

/-- Sample Meteora AMM pool whose TVL string fails to parse. -/
def c9_tvl_none : MeteoraPoolInfo :=
  { pool_address := "met-pool-2"
    pool_token_mints := (solMint, "USDCmint")
    pool_token_amounts := (some 100.0, some 10000.0)
    pool_tvl := none
    pool_name := "SOL-USDC"
    trading_volume := 0.0
    total_fee_pct := some 0.3 }

/-- Sample Meteora AMM pool whose first reserve-amount string fails to
parse. -/
def c9_amount_none : MeteoraPoolInfo :=
  { pool_address := "met-pool-3"
    pool_token_mints := (solMint, "USDCmint")
    pool_token_amounts := (none, some 10000.0)
    pool_tvl := some 50.0
    pool_name := "SOL-USDC"
    trading_volume := 0.0
    total_fee_pct := some 0.3 }

/-- Sample DLMM pair whose liquidity string fails to parse. -/
def c9_liq_none : DlmmPair :=
  { address := "dlmm-pair-3"
    name := "USDC-SOL"
    mint_x := "USDCmint"
    mint_y := solMint
    base_fee_percentage := some 0.3
    liquidity := none
    trade_volume_24h := 0.0
    current_price := 0.05
    hide := false
    is_blacklisted := false }

/-- Sample DLMM pair with a healthy liquidity but an unparseable
`base_fee_percentage` string. -/
def c9_fee_none : DlmmPair :=
  { address := "dlmm-pair-4"
    name := "USDC-SOL"
    mint_x := "USDCmint"
    mint_y := solMint
    base_fee_percentage := none
    liquidity := some 5.0
    trade_volume_24h := 0.0
    current_price := 0.05
    hide := false
    is_blacklisted := false }

/-- Sample Meteora AMM pool where SOL is token 0 and the denominator reserve
(`token 1`) parses to `0`. -/
def c10_pool : MeteoraPoolInfo :=
  { pool_address := "met-pool-4"
    pool_token_mints := (solMint, "USDCmint")
    pool_token_amounts := (some 5.0, some 0.0)
    pool_tvl := some 50.0
    pool_name := "SOL-USDC"
    trading_volume := 0.0
    total_fee_pct := some 0.3 }

end

/-- Anything `maxBy`'s fold returns was an element of the list or the
initial accumulator. -/
theorem foldl_maxByStep_eq_some {α : Type} (cmp : α → α → Ordering) :
    ∀ (l : List α) (acc : Option α) (r : α),
      l.foldl (maxByStep cmp) acc = some r → r ∈ l ∨ acc = some r := by
  intro l
  induction l with
  | nil => intro acc r h; exact Or.inr h
  | cons x xs ih =>
    intro acc r h
    rw [List.foldl_cons] at h
    rcases ih (maxByStep cmp acc x) r h with hmem | hacc
    · exact Or.inl (List.mem_cons_of_mem _ hmem)
    · cases acc with
      | none =>
        simp only [maxByStep, Option.some.injEq] at hacc
        exact Or.inl (by rw [← hacc]; exact List.mem_cons_self x xs)
      | some m =>
        by_cases hc : cmp m x = Ordering.gt
        · simp only [maxByStep, hc, if_true] at hacc
          exact Or.inr (by rw [hacc])
        · simp only [maxByStep, hc, if_false] at hacc
          simp only [Option.some.injEq] at hacc
          exact Or.inl (by rw [← hacc]; exact List.mem_cons_self x xs)

/-- `maxBy` selects an element of its input. -/
theorem maxBy_mem {α : Type} (cmp : α → α → Ordering) (l : List α) (r : α)
    (h : maxBy cmp l = some r) : r ∈ l := by
  rcases foldl_maxByStep_eq_some cmp l none r h with hmem | hacc
  · exact hmem
  · cases hacc

/-- `maxBy`'s fold never loses a `some` accumulator. -/
theorem foldl_maxByStep_isSome {α : Type} (cmp : α → α → Ordering) :
    ∀ (l : List α) (m : α), ∃ r, l.foldl (maxByStep cmp) (some m) = some r := by
  intro l
  induction l with
  | nil => intro m; exact ⟨m, rfl⟩
  | cons x xs ih =>
    intro m
    rw [List.foldl_cons]
    by_cases hc : cmp m x = Ordering.gt
    · simpa only [maxByStep, hc, if_true] using ih m
    · simpa only [maxByStep, hc, if_false] using ih x

/-- `maxBy` returns a value on every non-empty list. -/
theorem maxBy_isSome_of_ne_nil {α : Type} (cmp : α → α → Ordering) (l : List α)
    (h : l ≠ []) : ∃ r, maxBy cmp l = some r := by
  cases l with
  | nil => exact absurd rfl h
  | cons x xs =>
    show ∃ r, (x :: xs).foldl (maxByStep cmp) none = some r
    rw [List.foldl_cons]
    exact foldl_maxByStep_isSome cmp xs x

/-- Once the `pool_analysis.rs` comparator's fold holds a non-`NaN` record,
it never degrades to a `NaN` one. -/
theorem foldl_pa_keeps_nonNan :
    ∀ (l : List ScoredPool) (m r : ScoredPool),
      m.score.isNan = false →
      l.foldl (maxByStep fun a b => healthScoreCmp a.score b.score) (some m) = some r →
      r.score.isNan = false := by
  intro l
  induction l with
  | nil =>
    intro m r hm h
    cases h
    exact hm
  | cons x xs ih =>
    intro m r hm h
    rw [List.foldl_cons] at h
    cases hx : x.score.isNan with
    | true =>
      have hcmp : healthScoreCmp m.score x.score = Ordering.gt := by
        simp [healthScoreCmp, hm, hx]
      rw [show maxByStep (fun a b => healthScoreCmp a.score b.score) (some m) x = some m from
        by simp [maxByStep, hcmp]] at h
      exact ih m r hm h
    | false =>
      by_cases hc : healthScoreCmp m.score x.score = Ordering.gt
      · rw [show maxByStep (fun a b => healthScoreCmp a.score b.score) (some m) x = some m from
          by simp [maxByStep, hc]] at h
        exact ih m r hm h
      · rw [show maxByStep (fun a b => healthScoreCmp a.score b.score) (some m) x = some x from
          by simp [maxByStep, hc]] at h
        exact ih x r hx h

/-- If the list holds any non-`NaN`-scored record, the `pool_analysis.rs`
comparator's fold ends on a non-`NaN`-scored record. -/
theorem foldl_pa_reaches_nonNan :
    ∀ (l : List ScoredPool) (acc : Option ScoredPool) (r : ScoredPool),
      (∃ x ∈ l, x.score.isNan = false) →
      l.foldl (maxByStep fun a b => healthScoreCmp a.score b.score) acc = some r →
      r.score.isNan = false := by
  intro l
  induction l with
  | nil =>
    intro acc r hex _
    rcases hex with ⟨x, hx, _⟩
    cases hx
  | cons x xs ih =>
    intro acc r hex h
    rw [List.foldl_cons] at h
    cases hx : x.score.isNan with
    | false =>
      have hstep : ∃ m, maxByStep (fun a b => healthScoreCmp a.score b.score) acc x = some m ∧
          m.score.isNan = false := by
        cases acc with
        | none => exact ⟨x, rfl, hx⟩
        | some m =>
          cases hm : m.score.isNan with
          | true =>
            have hcmp : healthScoreCmp m.score x.score = Ordering.lt := by
              simp [healthScoreCmp, hm, hx]
            exact ⟨x, by simp [maxByStep, hcmp], hx⟩
          | false =>
            by_cases hc : healthScoreCmp m.score x.score = Ordering.gt
            · exact ⟨m, by simp [maxByStep, hc], hm⟩
            · exact ⟨x, by simp [maxByStep, hc], hx⟩
      rcases hstep with ⟨m, hstep, hm⟩
      rw [hstep] at h
      exact foldl_pa_keeps_nonNan xs m r hm h
    | true =>
      rcases hex with ⟨y, hy, hyn⟩
      rcases List.mem_cons.mp hy with rfl | hy'
      · rw [hx] at hyn; cases hyn
      · exact ih _ r ⟨y, hy', hyn⟩ h

/-- C3 (amended): in the `pool_analysis.rs` Selector a `NaN` score compares
strictly below every real score and equal to another `NaN`, so a
`NaN`-scored record is never the selected maximum while a finite-scored
record is present.  (In `main.rs`'s Selector the claim fails, see the
counterexample.) -/
theorem claim3_nan_never_selected (l : List ScoredPool) (r : ScoredPool) (q : ℚ)
    (hsel : find_healthiest_scored l = some r)
    (hfin : ∃ x ∈ l, x.score.isNan = false) :
    healthScoreCmp F64.nan (F64.fin q) = Ordering.lt ∧
      healthScoreCmp F64.nan F64.nan = Ordering.eq ∧
      r.score.isNan = false := by
  refine ⟨rfl, rfl, ?_⟩
  unfold find_healthiest_scored at hsel
  by_cases hl : l.isEmpty
  · rw [if_pos hl] at hsel; cases hsel
  · rw [if_neg hl] at hsel
    exact foldl_pa_reaches_nonNan l none r hfin hsel

/-- C3 witness: concrete run of the amended theorem on a one-record list. -/
theorem claim3_witness :
    healthScoreCmp F64.nan (F64.fin 2) = Ordering.lt ∧
      healthScoreCmp F64.nan F64.nan = Ordering.eq ∧
      (⟨"sole", F64.fin 1⟩ : ScoredPool).score.isNan = false :=
  claim3_nan_never_selected [⟨"sole", F64.fin 1⟩] ⟨"sole", F64.fin 1⟩ 2 (by decide)
    ⟨⟨"sole", F64.fin 1⟩, by decide, by decide⟩

/-- C3 counterexample: the live pipeline's Selector (`find_healthiest_pool`
in `main.rs`) maps `NaN` comparisons to `Equal`, so on a list holding a
finite-scored record followed by a `NaN`-scored one it selects the
`NaN`-scored record. -/
theorem claim3_counterexample :
    (∃ x ∈ [(⟨"finite", F64.fin (1/2)⟩ : ScoredPool), ⟨"nan-scored", F64.nan⟩],
        x.score.isNan = false) ∧
      find_healthiest_pool_f64 [⟨"finite", F64.fin (1/2)⟩, ⟨"nan-scored", F64.nan⟩]
        = some ⟨"nan-scored", F64.nan⟩ ∧
      (F64.nan).isNan = true := by
  exact ⟨⟨⟨"finite", F64.fin (1/2)⟩, List.mem_cons_self _ _, rfl⟩, by decide, rfl⟩

/-- The `main.rs` comparator's fold keeps an accumulator of finite score
`≤ q` (or stays `none`) over a block of records scoring at most `q`. -/
theorem foldl_main_le_bound (q : ℚ) :
    ∀ (l : List (String × ℚ)) (acc : Option ScoredPool),
      (acc = none ∨ ∃ n p, acc = some ⟨n, F64.fin p⟩ ∧ p ≤ q) →
      (∀ x ∈ l, x.2 ≤ q) →
      ((l.map fun s => (⟨s.1, F64.fin s.2⟩ : ScoredPool)).foldl
          (maxByStep mainScoreCmp) acc = none ∨
        ∃ n p, (l.map fun s => (⟨s.1, F64.fin s.2⟩ : ScoredPool)).foldl
          (maxByStep mainScoreCmp) acc = some ⟨n, F64.fin p⟩ ∧ p ≤ q) := by
  intro l
  induction l with
  | nil => intro acc hacc _; simpa using hacc
  | cons s l ih =>
    intro acc hacc hle
    rw [List.map_cons, List.foldl_cons]
    have hs : s.2 ≤ q := hle s (List.mem_cons_self s l)
    have hl : ∀ x ∈ l, x.2 ≤ q := fun x hx => hle x (List.mem_cons_of_mem _ hx)
    rcases hacc with hnone | ⟨n, p, heq, hp⟩
    · rw [hnone]
      exact ih (some ⟨s.1, F64.fin s.2⟩) (Or.inr ⟨s.1, s.2, rfl, hs⟩) hl
    · rw [heq]
      by_cases hc : mainScoreCmp ⟨n, F64.fin p⟩ ⟨s.1, F64.fin s.2⟩ = Ordering.gt
      · rw [show maxByStep mainScoreCmp (some ⟨n, F64.fin p⟩) ⟨s.1, F64.fin s.2⟩
            = some ⟨n, F64.fin p⟩ from by simp [maxByStep, hc]]
        exact ih _ (Or.inr ⟨n, p, rfl, hp⟩) hl
      · rw [show maxByStep mainScoreCmp (some ⟨n, F64.fin p⟩) ⟨s.1, F64.fin s.2⟩
            = some ⟨s.1, F64.fin s.2⟩ from by simp [maxByStep, hc]]
        exact ih _ (Or.inr ⟨s.1, s.2, rfl, hs⟩) hl

/-- The `main.rs` comparator's fold keeps a finite maximum against every
strictly lower-scoring later record. -/
theorem foldl_main_keep_gt (q : ℚ) (nm : String) :
    ∀ (l : List (String × ℚ)), (∀ x ∈ l, x.2 < q) →
      (l.map fun s => (⟨s.1, F64.fin s.2⟩ : ScoredPool)).foldl
        (maxByStep mainScoreCmp) (some ⟨nm, F64.fin q⟩) = some ⟨nm, F64.fin q⟩ := by
  intro l
  induction l with
  | nil => intro _; rfl
  | cons s l ih =>
    intro h
    rw [List.map_cons, List.foldl_cons]
    have hcmp : mainScoreCmp ⟨nm, F64.fin q⟩ ⟨s.1, F64.fin s.2⟩ = Ordering.gt := by
      simp only [mainScoreCmp, F64.pcmp, Option.getD_some]
      exact compare_gt_iff_gt.mpr (h s (List.mem_cons_self s l))
    rw [show maxByStep mainScoreCmp (some ⟨nm, F64.fin q⟩) ⟨s.1, F64.fin s.2⟩
        = some ⟨nm, F64.fin q⟩ from by simp [maxByStep, hcmp]]
    exact ih fun x hx => h x (List.mem_cons_of_mem _ hx)

/-- C8 (amended): when several records share the maximum score, the Selector
returns the last-encountered maximum in aggregation order: earlier records
may tie (score `≤ q`), all later records score strictly below, and the
selected record is exactly the distinguished one. -/
theorem claim8_tie_keeps_last (l₁ l₂ : List (String × ℚ)) (nm : String) (q : ℚ)
    (h₁ : ∀ x ∈ l₁, x.2 ≤ q) (h₂ : ∀ x ∈ l₂, x.2 < q) :
    find_healthiest_pool_f64
        ((l₁ ++ (nm, q) :: l₂).map fun s => (⟨s.1, F64.fin s.2⟩ : ScoredPool))
      = some ⟨nm, F64.fin q⟩ := by
  unfold find_healthiest_pool_f64 maxBy
  rw [List.map_append, List.foldl_append, List.map_cons, List.foldl_cons]
  have hmid : maxByStep mainScoreCmp
      ((l₁.map fun s => (⟨s.1, F64.fin s.2⟩ : ScoredPool)).foldl (maxByStep mainScoreCmp) none)
      ⟨nm, F64.fin q⟩ = some ⟨nm, F64.fin q⟩ := by
    rcases foldl_main_le_bound q l₁ none (Or.inl rfl) h₁ with hnone | ⟨n, p, heq, hle⟩
    · rw [hnone]; rfl
    · rw [heq]
      have hngt : mainScoreCmp ⟨n, F64.fin p⟩ ⟨nm, F64.fin q⟩ ≠ Ordering.gt := by
        simp only [mainScoreCmp, F64.pcmp, Option.getD_some, ne_eq, compare_gt_iff_gt]
        exact not_lt.mpr hle
      simp [maxByStep, hngt]
  rw [hmid]
  exact foldl_main_keep_gt q nm l₂ h₂

/-- C8 witness: a two-way tie between the first and second record, with a
lower-scoring trailing record; the second (last) maximum is selected. -/
theorem claim8_witness :
    find_healthiest_pool_f64
        (([("first-max", (1 : ℚ))] ++ ("second-max", (1 : ℚ)) :: [("low", (0 : ℚ))]).map
          fun s => (⟨s.1, F64.fin s.2⟩ : ScoredPool))
      = some ⟨"second-max", F64.fin 1⟩ :=
  claim8_tie_keeps_last [("first-max", 1)] [("low", 0)] "second-max" 1 (by decide) (by decide)

/-- C8 counterexample: on two records sharing the maximum score the Selector
returns the second-encountered one, not the first. -/
theorem claim8_counterexample :
    find_healthiest_pool_f64 [⟨"first-max", F64.fin 1⟩, ⟨"second-max", F64.fin 1⟩]
        = some ⟨"second-max", F64.fin 1⟩ ∧
      ("first-max" : String) ≠ "second-max" := by
  constructor
  · decide
  · decide

/-- A parse failure on either reserve amount makes `calc_meteora_price`
return `None`. -/
theorem calc_meteora_price_none_of_parse_fail (pool : MeteoraPoolInfo)
    (h : pool.pool_token_amounts.1 = none ∨ pool.pool_token_amounts.2 = none) :
    calc_meteora_price pool = none := by
  unfold calc_meteora_price
  rcases h with h1 | h2
  · rw [h1]
  · rw [h2]
    cases pool.pool_token_amounts.1 <;> rfl

/-- C10: `calc_meteora_price` is total and never divides by a non-positive
denominator: a parse failure on either reserve amount yields `None`, and in
each branch a non-positive denominator reserve (`token 1` when SOL is token
0, `token 0` otherwise) yields `None` instead of a division. -/
theorem claim10_no_division_by_nonpositive (pool : MeteoraPoolInfo) :
    (pool.pool_token_amounts.1 = none ∨ pool.pool_token_amounts.2 = none →
      calc_meteora_price pool = none) ∧
    (∀ a0 a1 : ℝ, pool.pool_token_amounts = (some a0, some a1) →
      (pool.pool_token_mints.1 = solMint → ¬ a1 > 0.0 → calc_meteora_price pool = none) ∧
      (pool.pool_token_mints.1 ≠ solMint → ¬ a0 > 0.0 → calc_meteora_price pool = none)) := by
  refine ⟨calc_meteora_price_none_of_parse_fail pool, ?_⟩
  intro a0 a1 heq
  have e1 : pool.pool_token_amounts.1 = some a0 := by rw [heq]
  have e2 : pool.pool_token_amounts.2 = some a1 := by rw [heq]
  constructor
  · intro hm hden
    simp only [calc_meteora_price, e1, e2]
    rw [if_pos hm, if_neg hden]
  · intro hm hden
    simp only [calc_meteora_price, e1, e2]
    rw [if_neg hm]
    by_cases h2m : pool.pool_token_mints.2 = solMint
    · rw [if_pos h2m, if_neg hden]
    · rw [if_neg h2m, if_neg hden]

/-- C10 witness: on a pool whose SOL side is token 0 and whose denominator
reserve parses to `0`, the price is `None`. -/
theorem claim10_witness : calc_meteora_price c10_pool = none :=
  ((claim10_no_division_by_nonpositive c10_pool).2 5.0 0.0 rfl).1 rfl (by norm_num)

/-- C7 (amended): when one side of the pool is the native asset, the derived
pre-USD price is the ratio of the NATIVE reserve to the non-native reserve
(native units per token) — not the non-native/native ratio the claim states
— and `process_meteora_pools` multiplies it by the fixed reference price. -/
theorem claim7_native_over_nonnative (pool : MeteoraPoolInfo) (a0 a1 : ℝ)
    (hamt : pool.pool_token_amounts = (some a0, some a1)) :
    (pool.pool_token_mints.1 = solMint → a1 > 0.0 →
      calc_meteora_price pool = some (a0 / a1)) ∧
    (pool.pool_token_mints.1 ≠ solMint → pool.pool_token_mints.2 = solMint → a0 > 0.0 →
      calc_meteora_price pool = some (a1 / a0)) ∧
    (∀ sol_price liquidity : ℝ, calc_meteora_price pool = some sol_price →
      pool.pool_tvl = some liquidity →
      ∃ p ∈ process_meteora_pools ⟨[pool]⟩, p.price_usd = sol_price * SOL_PRICE_USD) := by
  have e1 : pool.pool_token_amounts.1 = some a0 := by rw [hamt]
  have e2 : pool.pool_token_amounts.2 = some a1 := by rw [hamt]
  refine ⟨?_, ?_, ?_⟩
  · intro hm hden
    simp only [calc_meteora_price, e1, e2]
    rw [if_pos hm, if_pos hden]
  · intro hm h2m hden
    simp only [calc_meteora_price, e1, e2]
    rw [if_neg hm, if_pos h2m, if_pos hden]
  · intro sol_price liquidity hc ht
    simp only [process_meteora_pools, List.isEmpty_cons, Bool.false_eq_true, if_false,
      List.filterMap_cons, List.filterMap_nil, hc, ht]
    exact ⟨_, List.mem_cons_self _ _, rfl⟩

/-- C7 witness: concrete SOL-side pool with reserves `100` (SOL) and
`10000`: the price is `100 / 10000` SOL per token, and the canonical record
carries `price_usd = (100 / 10000) * SOL_PRICE_USD`. -/
theorem claim7_witness :
    calc_meteora_price c7_pool = some (100.0 / 10000.0) ∧
    ∃ p ∈ process_meteora_pools ⟨[c7_pool]⟩,
      p.price_usd = (100.0 / 10000.0) * SOL_PRICE_USD := by
  have h := claim7_native_over_nonnative c7_pool 100.0 10000.0 rfl
  have h1 := h.1 rfl (by norm_num)
  exact ⟨h1, h.2.2 _ 50.0 h1 rfl⟩

/-- C7 counterexample: for the pool with SOL reserve `100` and token reserve
`10000` the code returns `100 / 10000 = 0.01`, not the non-native/native
ratio `10000 / 100 = 100` stated by the claim. -/
theorem claim7_counterexample :
    c7_pool.pool_token_mints.1 = solMint ∧
    calc_meteora_price c7_pool = some (100.0 / 10000.0) ∧
    (100.0 / 10000.0 : ℝ) ≠ 10000.0 / 100.0 := by
  refine ⟨rfl, ?_, by norm_num⟩
  simp only [calc_meteora_price, c7_pool]
  norm_num

/-- C9 (amended): entries whose reserve-amount, TVL or liquidity numeric
strings fail to parse are dropped whole; an unparseable fee string is
instead defaulted to `0.0` (see the counterexample). -/
theorem claim9_unparseable_numeric_drops :
    (∀ pool : MeteoraPoolInfo, pool.pool_tvl = none →
      process_meteora_pools ⟨[pool]⟩ = []) ∧
    (∀ pool : MeteoraPoolInfo,
      pool.pool_token_amounts.1 = none ∨ pool.pool_token_amounts.2 = none →
      process_meteora_pools ⟨[pool]⟩ = []) ∧
    (∀ (gname : String) (pair : DlmmPair), pair.liquidity = none →
      process_meteora_dlmm_pools ⟨[⟨gname, [pair]⟩]⟩ = []) := by
  refine ⟨?_, ?_, ?_⟩
  · intro pool htvl
    cases hc : calc_meteora_price pool with
    | none => simp [process_meteora_pools, hc]
    | some sp => simp [process_meteora_pools, hc, htvl]
  · intro pool hamt
    simp [process_meteora_pools, calc_meteora_price_none_of_parse_fail pool hamt]
  · intro gname pair hliq
    rw [List.eq_nil_iff_forall_not_mem]
    intro p hp
    unfold process_meteora_dlmm_pools at hp
    rw [if_neg (by simp)] at hp
    rw [List.mem_flatMap] at hp
    rcases hp with ⟨g, hg, hp⟩
    rw [List.mem_singleton] at hg
    subst hg
    rw [List.mem_filterMap] at hp
    rcases hp with ⟨pr, hpr, hf⟩
    rw [List.mem_singleton] at hpr
    rw [hpr] at hf
    by_cases hh : pair.hide || pair.is_blacklisted
    · rw [if_pos hh] at hf; cases hf
    · rw [if_neg hh, hliq] at hf; cases hf

/-- C9 witness: the three drop rules on concrete unparseable entries. -/
theorem claim9_witness :
    process_meteora_pools ⟨[c9_tvl_none]⟩ = [] ∧
    process_meteora_pools ⟨[c9_amount_none]⟩ = [] ∧
    process_meteora_dlmm_pools ⟨[⟨"g", [c9_liq_none]⟩]⟩ = [] :=
  ⟨claim9_unparseable_numeric_drops.1 c9_tvl_none rfl,
   claim9_unparseable_numeric_drops.2.1 c9_amount_none (Or.inl rfl),
   claim9_unparseable_numeric_drops.2.2 "g" c9_liq_none rfl⟩

/-- C9 counterexample: a DLMM pair whose `base_fee_percentage` string fails
to parse still contributes a record, with the fee defaulted to `0.0` — the
claim says the whole entry is dropped with no default substituted. -/
theorem claim9_counterexample :
    c9_fee_none.base_fee_percentage = none ∧
    (process_meteora_dlmm_pools ⟨[⟨"g", [c9_fee_none]⟩]⟩).map PoolAnalysis.fee_percentage
      = [0.0] := by
  refine ⟨rfl, ?_⟩
  norm_num [process_meteora_dlmm_pools, c9_fee_none, List.flatMap_cons, List.flatMap_nil,
    List.filterMap_cons, List.filterMap_nil]

/-- C6: the Raydium normalizer converts its fractional provider fee to the
percent scale (`0.003 ↦ 0.30`), but the Meteora DLMM normalizer multiplies
its already-percent `base_fee_percentage` by `100` (`0.30 ↦ 30.0`), so the
two do not resolve to the same canonical value; the claim fails on the DLMM
source. -/
theorem claim6_fee_scale_divergence :
    (process_raydium_pools c6_raydium).map PoolAnalysis.fee_percentage = [0.30] ∧
    (process_meteora_dlmm_pools c6_dlmm).map PoolAnalysis.fee_percentage = [30.0] ∧
    (30.0 : ℝ) ≠ 0.30 := by
  refine ⟨?_, ?_, by norm_num⟩
  · norm_num [process_raydium_pools, c6_raydium]
  · norm_num [process_meteora_dlmm_pools, c6_dlmm, List.flatMap_cons, List.flatMap_nil,
      List.filterMap_cons, List.filterMap_nil]

/-- C1 (amended): only the Meteora DLMM normalizer filters on liquidity:
every record it contributes has `liquidity_usd > 0`.  (The Raydium, Orca and
Meteora AMM normalizers do not filter non-positive liquidity — see the
counterexample.) -/
theorem claim1_dlmm_liquidity_pos (d : MeteoraGroupsResponse) (p : PoolAnalysis)
    (hp : p ∈ process_meteora_dlmm_pools d) : 0 < p.liquidity_usd := by
  unfold process_meteora_dlmm_pools at hp
  by_cases hg : d.groups.isEmpty
  · rw [if_pos hg] at hp; cases hp
  · rw [if_neg hg, List.mem_flatMap] at hp
    rcases hp with ⟨group, _, hp⟩
    rw [List.mem_filterMap] at hp
    rcases hp with ⟨pair, _, hf⟩
    by_cases hh : pair.hide || pair.is_blacklisted
    · rw [if_pos hh] at hf; cases hf
    · rw [if_neg hh] at hf
      split at hf
      next => cases hf
      next liq heq =>
        split at hf
        next hpos =>
          simp only [Option.some.injEq] at hf
          have hpos' : (0 : ℝ) < liq := by norm_num at hpos; exact hpos
          rw [← hf]
          simpa using hpos'
        next hpos => cases hf

/-- C1 witness: the healthy sample DLMM pair yields a record with positive
liquidity. -/
theorem claim1_witness :
    ∃ p ∈ process_meteora_dlmm_pools c1_dlmm_sample, 0 < p.liquidity_usd := by
  obtain ⟨p, hp⟩ : ∃ p, p ∈ process_meteora_dlmm_pools c1_dlmm_sample := by
    norm_num [process_meteora_dlmm_pools, c1_dlmm_sample]
  exact ⟨p, hp, claim1_dlmm_liquidity_pos _ p hp⟩

/-- C1 counterexample: a Raydium pool with `tvl = 0` produces a canonical
record with `liquidity_usd = 0` that reaches the Selector's input (the
aggregate of `get_pools_data`). -/
theorem claim1_counterexample :
    ∃ p ∈ get_pools_data (.success c1_raydium_zero_tvl) .timedOut .timedOut .timedOut,
      ¬ 0 < p.liquidity_usd := by
  simp only [get_pools_data, process_raydium_pools, c1_raydium_zero_tvl]
  norm_num

/-- The pipeline either fails on an empty aggregate with the "no pools
found" error, or returns a member of the aggregate. -/
theorem token_price_analysis_cases (r : FetchOutcome RaydiumPoolResponse)
    (o : FetchOutcome (List OrcaPoolInfo)) (m : FetchOutcome MeteoraPoolResponse)
    (d : FetchOutcome MeteoraGroupsResponse) :
    (get_pools_data r o m d = [] ∧
      token_price_analysis r o m d = Except.error noPoolsMsg) ∨
    (∃ p ∈ get_pools_data r o m d, token_price_analysis r o m d = Except.ok p) := by
  by_cases h : get_pools_data r o m d = []
  · left
    refine ⟨h, ?_⟩
    simp only [token_price_analysis, h, List.isEmpty_nil, if_true]
  · right
    have hne : (get_pools_data r o m d).isEmpty = false := by
      cases hl : get_pools_data r o m d
      · exact absurd hl h
      · rfl
    obtain ⟨p, hp⟩ := maxBy_isSome_of_ne_nil
      (fun a b => (pcmpReal a.score b.score).getD Ordering.eq) (get_pools_data r o m d) h
    refine ⟨p, maxBy_mem _ _ _ hp, ?_⟩
    simp only [token_price_analysis, hne, Bool.false_eq_true, if_false,
      find_healthiest_pool, hp]

/-- C2: `token_price_analysis` returns the "no pools found" error iff the
aggregate is empty after all adapters resolve; and when exactly one source
succeeds with at least one valid record while every other source fails or
times out, the pipeline succeeds with a record of the surviving source. -/
theorem claim2_error_iff_empty_aggregate (r : FetchOutcome RaydiumPoolResponse)
    (o : FetchOutcome (List OrcaPoolInfo)) (m : FetchOutcome MeteoraPoolResponse)
    (d : FetchOutcome MeteoraGroupsResponse) :
    (token_price_analysis r o m d = Except.error noPoolsMsg ↔
      get_pools_data r o m d = []) ∧
    (∀ dat, r = .success dat → o.failed → m.failed → d.failed →
      process_raydium_pools dat ≠ [] →
      ∃ p ∈ process_raydium_pools dat, token_price_analysis r o m d = Except.ok p) ∧
    (∀ dat, o = .success dat → r.failed → m.failed → d.failed →
      process_orca_pools dat ≠ [] →
      ∃ p ∈ process_orca_pools dat, token_price_analysis r o m d = Except.ok p) ∧
    (∀ dat, m = .success dat → r.failed → o.failed → d.failed →
      process_meteora_pools dat ≠ [] →
      ∃ p ∈ process_meteora_pools dat, token_price_analysis r o m d = Except.ok p) ∧
    (∀ dat, d = .success dat → r.failed → o.failed → m.failed →
      process_meteora_dlmm_pools dat ≠ [] →
      ∃ p ∈ process_meteora_dlmm_pools dat, token_price_analysis r o m d = Except.ok p) := by
  refine ⟨?_, ?_, ?_, ?_, ?_⟩
  · constructor
    · intro herr
      rcases token_price_analysis_cases r o m d with ⟨hemp, _⟩ | ⟨p, _, hok⟩
      · exact hemp
      · rw [herr] at hok; cases hok
    · intro hemp
      rcases token_price_analysis_cases r o m d with ⟨_, herr⟩ | ⟨p, hp, _⟩
      · exact herr
      · rw [hemp] at hp; cases hp
  · intro dat hsucc h1 h2 h3 hne
    subst hsucc
    have hg : get_pools_data (.success dat) o m d = process_raydium_pools dat := by
      cases o <;> cases m <;> cases d <;>
        first
        | exact h1.elim
        | exact h2.elim
        | exact h3.elim
        | simp [get_pools_data]
    rcases token_price_analysis_cases (.success dat) o m d with ⟨hemp, _⟩ | ⟨p, hp, hok⟩
    · rw [hg] at hemp; exact absurd hemp hne
    · rw [hg] at hp; exact ⟨p, hp, hok⟩
  · intro dat hsucc h1 h2 h3 hne
    subst hsucc
    have hg : get_pools_data r (.success dat) m d = process_orca_pools dat := by
      cases r <;> cases m <;> cases d <;>
        first
        | exact h1.elim
        | exact h2.elim
        | exact h3.elim
        | simp [get_pools_data]
    rcases token_price_analysis_cases r (.success dat) m d with ⟨hemp, _⟩ | ⟨p, hp, hok⟩
    · rw [hg] at hemp; exact absurd hemp hne
    · rw [hg] at hp; exact ⟨p, hp, hok⟩
  · intro dat hsucc h1 h2 h3 hne
    subst hsucc
    have hg : get_pools_data r o (.success dat) d = process_meteora_pools dat := by
      cases r <;> cases o <;> cases d <;>
        first
        | exact h1.elim
        | exact h2.elim
        | exact h3.elim
        | simp [get_pools_data]
    rcases token_price_analysis_cases r o (.success dat) d with ⟨hemp, _⟩ | ⟨p, hp, hok⟩
    · rw [hg] at hemp; exact absurd hemp hne
    · rw [hg] at hp; exact ⟨p, hp, hok⟩
  · intro dat hsucc h1 h2 h3 hne
    subst hsucc
    have hg : get_pools_data r o m (.success dat) = process_meteora_dlmm_pools dat := by
      cases r <;> cases o <;> cases m <;>
        first
        | exact h1.elim
        | exact h2.elim
        | exact h3.elim
        | simp [get_pools_data]
    rcases token_price_analysis_cases r o m (.success dat) with ⟨hemp, _⟩ | ⟨p, hp, hok⟩
    · rw [hg] at hemp; exact absurd hemp hne
    · rw [hg] at hp; exact ⟨p, hp, hok⟩

/-- C2 witness: with only Raydium succeeding (one valid pool) and every
other source timed out, the pipeline succeeds with a Raydium record, and
the error-iff-empty equivalence holds at this input. -/
theorem claim2_witness :
    (token_price_analysis (.success c2_raydium_sample) .timedOut .timedOut .timedOut
        = Except.error noPoolsMsg ↔
      get_pools_data (.success c2_raydium_sample) .timedOut .timedOut .timedOut = []) ∧
    ∃ p ∈ process_raydium_pools c2_raydium_sample,
      token_price_analysis (.success c2_raydium_sample) .timedOut .timedOut .timedOut
        = Except.ok p := by
  have h := claim2_error_iff_empty_aggregate (.success c2_raydium_sample)
    .timedOut .timedOut .timedOut
  refine ⟨h.1, h.2.1 c2_raydium_sample rfl trivial trivial trivial ?_⟩
  norm_num [process_raydium_pools, c2_raydium_sample]

/-- Each clamped score component `max (min x 1.0) 0.0` lies in `[0, 1]`. -/
theorem clamped_component_bounds (x : ℝ) :
    0 ≤ max (min x 1.0) 0.0 ∧ max (min x 1.0) 0.0 ≤ 1 := by
  have h0 : (0.0 : ℝ) = 0 := by norm_num
  have h1 : (1.0 : ℝ) = 1 := by norm_num
  rw [h0, h1]
  exact ⟨le_max_right _ _, max_le (min_le_right _ _) zero_le_one⟩

/-- C4 (amended): for every weight configuration with non-negative weights
summing to `1.0`, a positive fee ceiling, and every record with (finite)
non-negative `fee_percentage`, the health score lies within `[0, 1]`.  (The
claim as stated fails for records with finite negative fees — see the
counterexample.) -/
theorem claim4_health_score_bounds (pool : StandardizedPool) (config : HealthScoreConfig)
    (hlw : 0 ≤ config.liquidity_weight) (hvw : 0 ≤ config.volume_weight)
    (hfw : 0 ≤ config.fee_weight) (hsw : 0 ≤ config.stability_weight)
    (hsum : config.liquidity_weight + config.volume_weight + config.fee_weight
        + config.stability_weight = 1)
    (hfee : 0 ≤ pool.fee_percentage) (hmef : 0 < config.max_expected_fee) :
    0 ≤ (calculate_health_score pool config).health_score ∧
      (calculate_health_score pool config).health_score ≤ 1 := by
  have hH : (calculate_health_score pool config).health_score
      = (calculate_health_score pool config).liquidity_score * config.liquidity_weight
        + (calculate_health_score pool config).volume_score * config.volume_weight
        + (calculate_health_score pool config).fee_score * config.fee_weight := rfl
  have hLeq : (calculate_health_score pool config).liquidity_score
      = if pool.liquidity_usd > 0.0 then
          max (min (Real.logb 10 pool.liquidity_usd
              / Real.logb 10 config.max_expected_liquidity) 1.0) 0.0
        else 0.0 := rfl
  have hVeq : (calculate_health_score pool config).volume_score
      = match pool.volume_24h with
        | some volume =>
          if volume > 0.0 then
            max (min (Real.logb 10 volume / Real.logb 10 config.max_expected_volume) 1.0) 0.0
          else 0.0
        | none => 0.0 := rfl
  have hFeq : (calculate_health_score pool config).fee_score
      = max (1.0 - pool.fee_percentage / config.max_expected_fee) 0.0 := rfl
  have hL : 0 ≤ (calculate_health_score pool config).liquidity_score ∧
      (calculate_health_score pool config).liquidity_score ≤ 1 := by
    rw [hLeq]
    split_ifs
    · exact clamped_component_bounds _
    · norm_num
  have hV : 0 ≤ (calculate_health_score pool config).volume_score ∧
      (calculate_health_score pool config).volume_score ≤ 1 := by
    cases hvol : pool.volume_24h with
    | none =>
      simp only [hvol] at hVeq
      rw [hVeq]
      norm_num
    | some volume =>
      simp only [hvol] at hVeq
      rw [hVeq]
      split_ifs
      · exact clamped_component_bounds _
      · norm_num
  have hF : 0 ≤ (calculate_health_score pool config).fee_score ∧
      (calculate_health_score pool config).fee_score ≤ 1 := by
    rw [hFeq]
    have h0 : (0.0 : ℝ) = 0 := by norm_num
    have h1 : (1.0 : ℝ) = 1 := by norm_num
    rw [h0, h1]
    refine ⟨le_max_right _ _, max_le ?_ zero_le_one⟩
    have hdiv : 0 ≤ pool.fee_percentage / config.max_expected_fee :=
      div_nonneg hfee hmef.le
    linarith
  obtain ⟨hl0, hl1⟩ := hL
  obtain ⟨hv0, hv1⟩ := hV
  obtain ⟨hf0, hf1⟩ := hF
  rw [hH]
  constructor
  · have e1 := mul_nonneg hl0 hlw
    have e2 := mul_nonneg hv0 hvw
    have e3 := mul_nonneg hf0 hfw
    linarith
  · have e1 : (calculate_health_score pool config).liquidity_score * config.liquidity_weight
        ≤ config.liquidity_weight := mul_le_of_le_one_left hlw hl1
    have e2 : (calculate_health_score pool config).volume_score * config.volume_weight
        ≤ config.volume_weight := mul_le_of_le_one_left hvw hv1
    have e3 : (calculate_health_score pool config).fee_score * config.fee_weight
        ≤ config.fee_weight := mul_le_of_le_one_left hfw hf1
    linarith

/-- C4 witness: the default weight configuration and a record with zero
liquidity, no volume and zero fee give a score in `[0, 1]`. -/
theorem claim4_witness :
    0 ≤ (calculate_health_score c4w_pool HealthScoreConfig.default).health_score ∧
      (calculate_health_score c4w_pool HealthScoreConfig.default).health_score ≤ 1 :=
  claim4_health_score_bounds c4w_pool HealthScoreConfig.default
    (by norm_num [HealthScoreConfig.default]) (by norm_num [HealthScoreConfig.default])
    (by norm_num [HealthScoreConfig.default]) (by norm_num [HealthScoreConfig.default])
    (by norm_num [HealthScoreConfig.default]) (by norm_num [c4w_pool])
    (by norm_num [HealthScoreConfig.default])

/-- C4 counterexample: under the default configuration (weights summing to
`1.0`) a record with all fields finite but a negative fee (`-95`) scores
`9.6 > 1`, outside `[0, 1]`. -/
theorem claim4_counterexample :
    (HealthScoreConfig.default.liquidity_weight + HealthScoreConfig.default.volume_weight
      + HealthScoreConfig.default.fee_weight + HealthScoreConfig.default.stability_weight
      = 1) ∧
    1 < (calculate_health_score c4_pool HealthScoreConfig.default).health_score := by
  constructor
  · norm_num [HealthScoreConfig.default]
  · have hH : (calculate_health_score c4_pool HealthScoreConfig.default).health_score
        = (calculate_health_score c4_pool HealthScoreConfig.default).liquidity_score * 0.5
          + (calculate_health_score c4_pool HealthScoreConfig.default).volume_score * 0.3
          + (calculate_health_score c4_pool HealthScoreConfig.default).fee_score * 0.1 := rfl
    have hLs : (calculate_health_score c4_pool HealthScoreConfig.default).liquidity_score
        = 0.0 := by
      rw [show (calculate_health_score c4_pool HealthScoreConfig.default).liquidity_score
          = if c4_pool.liquidity_usd > 0.0 then
              max (min (Real.logb 10 c4_pool.liquidity_usd
                  / Real.logb 10 HealthScoreConfig.default.max_expected_liquidity) 1.0) 0.0
            else 0.0 from rfl]
      rw [if_neg (by norm_num [c4_pool])]
    have hVs : (calculate_health_score c4_pool HealthScoreConfig.default).volume_score
        = 0.0 := rfl
    have hFs : (calculate_health_score c4_pool HealthScoreConfig.default).fee_score = 96 := by
      rw [show (calculate_health_score c4_pool HealthScoreConfig.default).fee_score
          = max (1.0 - c4_pool.fee_percentage
              / HealthScoreConfig.default.max_expected_fee) 0.0 from rfl]
      rw [max_eq_left (by norm_num [c4_pool, HealthScoreConfig.default])]
      norm_num [c4_pool, HealthScoreConfig.default]
    rw [hH, hLs, hVs, hFs]
    norm_num

/-- C5 (amended): the Scorer's fee component is `max(1 - fee/ceiling, 0)`,
which coincides with `clamp(1 - fee/ceiling, 0, 1)` whenever the fee is
non-negative; a fee at or above the ceiling yields exactly `0`, and the
component is never negative.  (For finite negative fees the component
exceeds `1` instead of clamping — see the counterexample.) -/
theorem claim5_fee_component (pool : StandardizedPool) (config : HealthScoreConfig)
    (hmef : 0 < config.max_expected_fee) :
    (0 ≤ pool.fee_percentage →
      (calculate_health_score pool config).fee_score
        = clamp01 (1 - pool.fee_percentage / config.max_expected_fee)) ∧
    (config.max_expected_fee ≤ pool.fee_percentage →
      (calculate_health_score pool config).fee_score = 0) ∧
    0 ≤ (calculate_health_score pool config).fee_score := by
  have hFeq : (calculate_health_score pool config).fee_score
      = max (1.0 - pool.fee_percentage / config.max_expected_fee) 0.0 := rfl
  have h0 : (0.0 : ℝ) = 0 := by norm_num
  have h1 : (1.0 : ℝ) = 1 := by norm_num
  rw [hFeq, h0, h1]
  refine ⟨?_, ?_, le_max_right _ _⟩
  · intro hfee
    have hdiv : 0 ≤ pool.fee_percentage / config.max_expected_fee :=
      div_nonneg hfee hmef.le
    unfold clamp01
    rw [min_eq_left (max_le (by linarith) zero_le_one)]
  · intro hge
    have hdiv : 1 ≤ pool.fee_percentage / config.max_expected_fee :=
      (one_le_div hmef).mpr hge
    rw [max_eq_right (by linarith)]

/-- C5 witness: with the default ceiling (`1`) and a fee of `6` (at or above
the ceiling), the fee component equals the clamp and is exactly `0`. -/
theorem claim5_witness :
    (calculate_health_score c5w_pool HealthScoreConfig.default).fee_score
      = clamp01 (1 - c5w_pool.fee_percentage / HealthScoreConfig.default.max_expected_fee) ∧
    (calculate_health_score c5w_pool HealthScoreConfig.default).fee_score = 0 := by
  have h := claim5_fee_component c5w_pool HealthScoreConfig.default
    (by norm_num [HealthScoreConfig.default])
  exact ⟨h.1 (by norm_num [c5w_pool]),
    h.2.1 (by norm_num [c5w_pool, HealthScoreConfig.default])⟩

/-- C5 counterexample: with the default ceiling (`1`) a record with fee
`-5` gets fee component `6`, while `clamp(1 - fee/ceiling, 0, 1)` is `1` —
so the component does not equal the claimed clamp for every record. -/
theorem claim5_counterexample :
    (calculate_health_score c5_pool HealthScoreConfig.default).fee_score = 6 ∧
    clamp01 (1 - c5_pool.fee_percentage / HealthScoreConfig.default.max_expected_fee) = 1 ∧
    (6 : ℝ) ≠ 1 := by
  refine ⟨?_, ?_, by norm_num⟩
  · rw [show (calculate_health_score c5_pool HealthScoreConfig.default).fee_score
        = max (1.0 - c5_pool.fee_percentage
            / HealthScoreConfig.default.max_expected_fee) 0.0 from rfl]
    rw [max_eq_left (by norm_num [c5_pool, HealthScoreConfig.default])]
    norm_num [c5_pool, HealthScoreConfig.default]
  · unfold clamp01
    rw [min_eq_right
      (le_trans (by norm_num [c5_pool, HealthScoreConfig.default]) (le_max_left _ _))]

end SolDexPools
